import Mathlib

/-!
Shallow embedding of the external-mdns resource-to-record translation core.

Sources embedded:
  * `buildARecord`, `buildSRVRecord`  (source/records.go, in src/source/ingress.go bundle)
  * `IngressSource.buildRecords` and its event handlers (src/source/ingress.go)
  * `ServiceSource.buildRecords` and its event handlers — the annotation-based
    variant wired into `main()` (second document of src/main.go)
  * `ServiceSourceAlt.buildRecords` — the alternate Service builder variant
    (src/unnamed/part_000) that carries the namespace filter and the
    `publishInternal` gate
  * the wiring of `main()` (src/main.go): the configured namespace restriction
    is passed to the Ingress watcher only, `publishAll` to the Service watcher.

Modelling conventions: Go strings are Lean `String`s; Go byte values are `Nat`
(0..255); Go `net.IP` is the sum `IP` below, with `To4`'s mapped-address
detection as `IP.to4?`.  `net.ParseIP` (a stdlib collaborator) is modelled
faithfully to its textual grammar (dotted quad via `dtoi` with the modern
leading-zero rejection, IPv6 groups via `xtoi` with `::` expansion and an
embedded v4 tail).  Go maps appear as association lists in one observed
iteration order; the `encoding/json` decoding of the service-txt annotation is
a parameter `decode` returning such a table, so that the unspecified map
iteration order of a single `json.Unmarshal` result is captured by which table
the parameter returns.
-/

namespace ExternalMdns

/-- Go `strings.HasSuffix`. -/
def hasSuffix (s suf : String) : Bool := decide (suf.data <:+ s.data)

/-- Go `strings.ToLower` (ASCII range, which is all the program's service
names use). -/
def toLowerGo (s : String) : String := String.mk (s.data.map Char.toLower)

/-- Decimal digit accumulator of Go's `dtoi` (net/parse.go): consumes leading
digits, capping at `big = 0xFFFFFF`; `ok` is false when no digit was read or
the cap was hit. -/
def dtoiAux : List Char → Nat → Nat → Nat × Nat × Bool
  | [], n, i => (n, i, decide (0 < i))
  | c :: rest, n, i =>
    if '0' ≤ c ∧ c ≤ '9' then
      let m := n * 10 + (c.toNat - '0'.toNat)
      if 0xFFFFFF ≤ m then (0xFFFFFF, i, false)
      else dtoiAux rest m (i + 1)
    else (n, i, decide (0 < i))

/-- Go `dtoi`. -/
def dtoi (s : List Char) : Nat × Nat × Bool := dtoiAux s 0 0

/-- Hex digit value, as accepted by Go's `xtoi`. -/
def hexVal? (c : Char) : Option Nat :=
  if '0' ≤ c ∧ c ≤ '9' then some (c.toNat - '0'.toNat)
  else if 'a' ≤ c ∧ c ≤ 'f' then some (c.toNat - 'a'.toNat + 10)
  else if 'A' ≤ c ∧ c ≤ 'F' then some (c.toNat - 'A'.toNat + 10)
  else none

/-- Hex accumulator of Go's `xtoi` (net/parse.go). -/
def xtoiAux : List Char → Nat → Nat → Nat × Nat × Bool
  | [], n, i => (n, i, decide (0 < i))
  | c :: rest, n, i =>
    match hexVal? c with
    | none => (n, i, decide (0 < i))
    | some d =>
      let m := n * 16 + d
      if 0xFFFFFF ≤ m then (0, i, false)
      else xtoiAux rest m (i + 1)

/-- Go `xtoi`. -/
def xtoi (s : List Char) : Nat × Nat × Bool := xtoiAux s 0 0

/-- The four-field loop of Go's `parseIPv4`: each field is `dtoi`-parsed,
must be ≤ 255, may not have a redundant leading zero, and fields after the
first must be preceded by a dot; the whole string must be consumed. -/
def parseV4Fields : Nat → Bool → List Char → Option (List Nat)
  | 0, _, s => if s = [] then some [] else none
  | k + 1, first, s =>
    if s = [] then none
    else
      let rest? : Option (List Char) :=
        if first then some s
        else match s with
             | '.' :: r => some r
             | _ => none
      match rest? with
      | none => none
      | some s1 =>
        match dtoi s1 with
        | (n, c, ok) =>
          if ok = false ∨ 255 < n then none
          else if 1 < c ∧ s1.head? = some '0' then none
          else
            match parseV4Fields k false (s1.drop c) with
            | some ns => some (n :: ns)
            | none => none

/-- Go `parseIPv4`, returning the four octets. -/
def parseV4Go (s : List Char) : Option (Nat × Nat × Nat × Nat) :=
  match parseV4Fields 4 true s with
  | some [a, b, c, d] => some (a, b, c, d)
  | _ => none

/-- End of Go's `parseIPv6`: expand the `::` ellipsis (which must stand for at
least one group) or require all 16 bytes to be present. -/
def finishV6 (acc : List Nat) (ell : Option Nat) : Option (List Nat) :=
  if acc.length = 16 then
    match ell with
    | some _ => none
    | none => some acc
  else
    match ell with
    | none => none
    | some e => some (acc.take e ++ List.replicate (16 - acc.length) 0 ++ acc.drop e)

/-- The main loop of Go's `parseIPv6`: 16-bit hex groups separated by colons,
at most one `::`, optionally ending in an embedded dotted-quad occupying the
last four bytes.  `acc` holds the bytes emitted so far, `ell` the ellipsis
position.  Fuel only bounds the recursion; every iteration consumes input. -/
def parseV6Loop : Nat → List Char → List Nat → Option Nat → Option (List Nat)
  | 0, _, _, _ => none
  | fuel + 1, s, acc, ell =>
    match xtoi s with
    | (n, c, ok) =>
      if ok = false ∨ 0xFFFF < n then none
      else if (s.drop c).head? = some '.' then
        if ell = none ∧ acc.length ≠ 12 then none
        else if 16 < acc.length + 4 then none
        else
          match parseV4Go s with
          | none => none
          | some (a, b, c4, d) => finishV6 (acc ++ [a, b, c4, d]) ell
      else
        let acc2 := acc ++ [n / 256, n % 256]
        match s.drop c with
        | [] => finishV6 acc2 ell
        | ch :: rest =>
          if ch ≠ ':' ∨ rest = [] then none
          else
            match rest with
            | ':' :: rest2 =>
              if ell.isSome then none
              else if rest2 = [] then finishV6 acc2 (some acc2.length)
              else if acc2.length < 16 then parseV6Loop fuel rest2 acc2 (some acc2.length)
              else none
            | _ =>
              if acc2.length < 16 then parseV6Loop fuel rest acc2 ell
              else none

/-- Go `parseIPv6`, including the leading-`::` special case. -/
def parseV6Go (s : List Char) : Option (List Nat) :=
  match s with
  | ':' :: ':' :: rest =>
    if rest = [] then some (List.replicate 16 0)
    else parseV6Loop (rest.length + 2) rest [] (some 0)
  | _ => parseV6Loop (s.length + 2) s [] none

/-- The dispatch scan of Go `net.ParseIP`: the first `.` or `:` encountered
selects the v4 or v6 grammar; a string containing neither parses as no IP. -/
def scanDotColon : List Char → Option Bool
  | [] => none
  | '.' :: _ => some true
  | ':' :: _ => some false
  | _ :: rest => scanDotColon rest

/-- A parsed `net.IP`: four octets or sixteen bytes. -/
inductive IP where
  | v4 (a b c d : Nat)
  | v6 (bytes : List Nat)
deriving DecidableEq

/-- Go `net.ParseIP`. -/
def parseIP (s : String) : Option IP :=
  match scanDotColon s.data with
  | some true => (parseV4Go s.data).map (fun x => IP.v4 x.1 x.2.1 x.2.2.1 x.2.2.2)
  | some false => (parseV6Go s.data).map IP.v6
  | none => none

/-- Go `IP.To4` on a 16-byte address: the IPv4-in-IPv6 mapped pattern. -/
def ip4Mapped? : List Nat → Option (Nat × Nat × Nat × Nat)
  | [0, 0, 0, 0, 0, 0, 0, 0, 0, 0, 255, 255, a, b, c, d] => some (a, b, c, d)
  | _ => none

/-- Go `IP.To4`. -/
def IP.to4? : IP → Option (Nat × Nat × Nat × Nat)
  | .v4 a b c d => some (a, b, c, d)
  | .v6 bs => ip4Mapped? bs

/-- Go `IP.To16`. -/
def IP.to16 : IP → List Nat
  | .v4 a b c d => [0, 0, 0, 0, 0, 0, 0, 0, 0, 0, 255, 255, a, b, c, d]
  | .v6 bs => bs

/-- The DNS records the program constructs (miekg/dns values, restricted to
the fields the program sets). -/
inductive RR where
  | A (name : String) (addr : Nat × Nat × Nat × Nat)
  | AAAA (name : String) (bytes : List Nat)
  | PTR (name target : String)
  | SRV (name : String) (priority weight port : Nat) (target : String)
  | TXT (name : String) (strs : List String)
deriving DecidableEq

/-- Lowercase hex digit, Go's `%x` on a nibble value. -/
def hexDigit (n : Nat) : Char :=
  if n < 10 then Char.ofNat ('0'.toNat + n) else Char.ofNat ('a'.toNat + (n - 10))

/-- One iteration of the IPv6 reverse-name loop: for byte `b`, emit
`%x.%x.` of `b&0x0f` and `(b&0xf0)>>4`. -/
def nibbleLabels (b : Nat) : String :=
  String.mk [hexDigit (b % 16)] ++ "." ++ String.mk [hexDigit (b / 16 % 16)] ++ "."

/-- The IPv4 reverse name written by `buildARecord`:
`%d.%d.%d.%d.in-addr.arpa.` of the reversed octets. -/
def reverseNameV4 (a b c d : Nat) : String :=
  toString d ++ "." ++ toString c ++ "." ++ toString b ++ "." ++ toString a ++
    ".in-addr.arpa."

/-- The IPv6 reverse name written by `buildARecord`: bytes processed last to
first, low nibble before high nibble, then `ip6.arpa.`. -/
def reverseNameV6 (bytes : List Nat) : String :=
  String.join (bytes.reverse.map nibbleLabels) ++ "ip6.arpa."

/-- source/records.go `buildARecord`. -/
def buildARecord (name : String) (addr : IP) (addReverse : Bool) : List RR :=
  match addr.to4? with
  | some (a, b, c, d) =>
    let forward := RR.A name (a, b, c, d)
    let reverse := RR.PTR (reverseNameV4 a b c d) name
    if addReverse then [forward, reverse] else [forward]
  | none =>
    let bs := addr.to16
    let forward := RR.AAAA name bs
    let reverse := RR.PTR (reverseNameV6 bs) name
    if addReverse then [forward, reverse] else [forward]

/-- source/records.go `buildSRVRecord`.  `protocol` is the string value of
`corev1.Protocol` ("TCP" / "UDP"); `port` the `uint16` value. -/
def buildSRVRecord (instancename servicename protocol hostname : String)
    (port : Nat) (txt : List String) : List RR :=
  if instancename = "" ∨ servicename = "" ∨ hostname = "" ∨ port = 0 then []
  else
    let txt := if txt = [] then [""] else txt
    let proto? : Option String :=
      if protocol = "TCP" then some "tcp"
      else if protocol = "UDP" then some "udp"
      else none
    match proto? with
    | none => []
    | some proto =>
      let dnsservice := "_" ++ toLowerGo servicename ++ "._" ++ proto ++ ".local."
      let dnsinstance := instancename ++ "." ++ dnsservice
      [RR.PTR dnsservice dnsinstance,
       RR.SRV dnsinstance 0 0 port hostname,
       RR.TXT dnsinstance txt]

/-- One port of a Service spec (`port` carries the numeric `Port` value;
the builder applies the Go `uint16` conversion). -/
structure ServicePort where
  name : String
  port : Nat
  protocol : String
deriving DecidableEq

/-- View of a `corev1.Service` as read by `buildRecords`. -/
structure Service where
  name : String
  ns : String
  type : String
  clusterIP : String
  lbIngressIPs : List String
  annotations : List (String × String)
  ports : List ServicePort
deriving DecidableEq

/-- Go map lookup on the annotation map (keys are unique). -/
def lookupAnn (anns : List (String × String)) (k : String) : Option String :=
  (anns.find? (fun kv => kv.1 == k)).map (fun kv => kv.2)

def hostnameKey : String := "external-mdns.blake.github.io/hostname"

def serviceInstanceKey : String := "external-mdns.blake.github.io/service-instance"

def serviceTxtKey : String := "external-mdns.blake.github.io/service-txt"

def publishKey : String := "external-mdns.blake.github.io/publish"

/-- A decoded service-txt JSON object in one observed iteration order:
outer entries are port names, inner entries key/value pairs. -/
abbrev TxtTable := List (String × List (String × String))

/-- The `svctxt` accumulation: for a port name, the `key=value` strings
collected from every outer entry with that name, in iteration order. -/
def txtFor (table : TxtTable) (p : String) : List String :=
  (table.filter (fun e => e.1 == p)).flatMap (fun e => e.2.map (fun kv => kv.1 ++ "=" ++ kv.2))

/-- The `svctxt` map of `ServiceSource.buildRecords`: built only when the
service-txt annotation is present with a non-empty value and unmarshals
successfully; otherwise every port gets the empty list. -/
def ServiceSource.svctxt (decode : String → Option TxtTable) (txtAnn : Option String) :
    String → List String :=
  match txtAnn with
  | some v =>
    if v ≠ "" then
      match decode v with
      | some table => fun p => txtFor table p
      | none => fun _ => []
    else fun _ => []
  | none => fun _ => []

/-- Hostname as read by `ServiceSource.buildRecords` before normalization:
annotation override or `<name>.<namespace>.local.`. -/
def hostnameOf (service : Service) : String :=
  (lookupAnn service.annotations hostnameKey).getD
    (service.name ++ "." ++ service.ns ++ ".local.")

/-- Instance name: annotation override or `<namespace>/<name>`. -/
def instanceNameOf (service : Service) : String :=
  (lookupAnn service.annotations serviceInstanceKey).getD
    (service.ns ++ "/" ++ service.name)

/-- The eligibility gate of `ServiceSource.buildRecords` (main variant):
the early return fires unless publish-all is on or one of the four
annotations is present. -/
def ServiceSource.eligible (publishAll : Bool) (service : Service) : Bool :=
  publishAll || (lookupAnn service.annotations hostnameKey).isSome ||
    (lookupAnn service.annotations serviceInstanceKey).isSome ||
    (lookupAnn service.annotations serviceTxtKey).isSome ||
    (lookupAnn service.annotations publishKey).isSome

/-- The `ip` computation of `ServiceSource.buildRecords` (main variant):
ClusterIP services always parse their cluster address; LoadBalancer services
re-assign `ip` for every non-empty load-balancer ingress IP encountered. -/
def ServiceSource.serviceIP (service : Service) : Option IP :=
  if service.type = "ClusterIP" then parseIP service.clusterIP
  else if service.type = "LoadBalancer" then
    service.lbIngressIPs.foldl (fun acc s => if s ≠ "" then parseIP s else acc) none
  else none

/-- First normalization step of `ServiceSource.buildRecords`
(src/main.go lines 295-297): ensure a trailing dot. -/
def normalizeDot (hostname : String) : String :=
  if hasSuffix hostname "." then hostname else hostname ++ "."

/-- The hostname normalization of `ServiceSource.buildRecords`
(src/main.go lines 295-300): ensure a trailing dot, then append `local.`
unless the name already ends in `.local.`. -/
def normalizeHostname (hostname : String) : String :=
  if hasSuffix (normalizeDot hostname) ".local." then normalizeDot hostname
  else normalizeDot hostname ++ "local."

/-- `ServiceSource.buildRecords`, the annotation-based variant wired into
`main()` (second document of src/main.go). -/
def ServiceSource.buildRecords (publishAll : Bool) (decode : String → Option TxtTable)
    (service : Service) : List RR :=
  if ServiceSource.eligible publishAll service then
    match ServiceSource.serviceIP service with
    | none => []
    | some ip =>
      let hostname := normalizeHostname (hostnameOf service)
      let instancename := instanceNameOf service
      let st := ServiceSource.svctxt decode (lookupAnn service.annotations serviceTxtKey)
      service.ports.foldl
        (fun recs p =>
          recs ++ buildSRVRecord instancename p.name p.protocol hostname
            (p.port % 65536) (st p.name))
        (buildARecord hostname ip true)
  else []

/-- Configuration of the alternate Service builder variant
(src/unnamed/part_000). -/
structure AltServiceCfg where
  defaultNamespace : String
  withoutNamespace : Bool
  ns : String
  publishInternal : Bool
deriving DecidableEq

/-- The `ip` computation of the alternate variant: the ClusterIP branch is
gated on `publishInternal`. -/
def ServiceSourceAlt.serviceIP (cfg : AltServiceCfg) (service : Service) : Option IP :=
  if service.type = "ClusterIP" ∧ cfg.publishInternal then parseIP service.clusterIP
  else if service.type = "LoadBalancer" then
    service.lbIngressIPs.foldl (fun acc s => if s ≠ "" then parseIP s else acc) none
  else none

/-- `ServiceSource.buildRecords`, the alternate variant (src/unnamed/part_000):
namespace filter after the address check, address/reverse pair, optional
short name. -/
def ServiceSourceAlt.buildRecords (cfg : AltServiceCfg) (service : Service) : List RR :=
  match ServiceSourceAlt.serviceIP cfg service with
  | none => []
  | some ip =>
    if cfg.ns ≠ "" ∧ cfg.ns ≠ service.ns then []
    else
      let recs := buildARecord (service.name ++ "." ++ service.ns ++ ".local.") ip true
      if service.ns = cfg.defaultNamespace ∨ cfg.withoutNamespace then
        recs ++ buildARecord (service.name ++ ".local.") ip false
      else recs

/-- View of a `networking/v1.Ingress` as read by `buildRecords`. -/
structure Ingress where
  ns : String
  lbIngressIPs : List String
  ruleHosts : List String
deriving DecidableEq

/-- `IngressSource.buildRecords` (src/source/ingress.go): last non-empty
load-balancer IP, namespace filter, one forward record per rule whose host is
non-empty and ends in `.local`. -/
def IngressSource.buildRecords (nsRestriction : String) (ingress : Ingress) : List RR :=
  let ip? := ingress.lbIngressIPs.foldl (fun acc s => if s ≠ "" then parseIP s else acc) none
  match ip? with
  | none => []
  | some ip =>
    if nsRestriction ≠ "" ∧ nsRestriction ≠ ingress.ns then []
    else
      ingress.ruleHosts.foldl
        (fun recs h =>
          if h ≠ "" ∧ hasSuffix h ".local" then recs ++ buildARecord (h ++ ".") ip false
          else recs)
        []

/-- `resource.Action`. -/
inductive Action where
  | added
  | deleted
deriving DecidableEq

/-- `resource.Resource`, one event sent on the notification channel. -/
structure Resource where
  sourceType : String
  action : Action
  records : List RR
deriving DecidableEq

/-- `ServiceSource.onAdd`: the events sent by one call, in order. -/
def ServiceSource.onAdd (publishAll : Bool) (decode : String → Option TxtTable)
    (obj : Service) : List Resource :=
  [{ sourceType := "service", action := Action.added,
     records := ServiceSource.buildRecords publishAll decode obj }]

/-- `ServiceSource.onDelete`. -/
def ServiceSource.onDelete (publishAll : Bool) (decode : String → Option TxtTable)
    (obj : Service) : List Resource :=
  [{ sourceType := "service", action := Action.deleted,
     records := ServiceSource.buildRecords publishAll decode obj }]

/-- `ServiceSource.onUpdate`: `onDelete(old)` then `onAdd(new)`, sequentially
in the calling goroutine; the trace concatenation is the channel send order. -/
def ServiceSource.onUpdate (publishAll : Bool) (decode : String → Option TxtTable)
    (oldObj newObj : Service) : List Resource :=
  ServiceSource.onDelete publishAll decode oldObj ++
    ServiceSource.onAdd publishAll decode newObj

/-- `IngressSource.onAdd`. -/
def IngressSource.onAdd (nsRestriction : String) (obj : Ingress) : List Resource :=
  [{ sourceType := "ingress", action := Action.added,
     records := IngressSource.buildRecords nsRestriction obj }]

/-- `IngressSource.onDelete`. -/
def IngressSource.onDelete (nsRestriction : String) (obj : Ingress) : List Resource :=
  [{ sourceType := "ingress", action := Action.deleted,
     records := IngressSource.buildRecords nsRestriction obj }]

/-- `IngressSource.onUpdate`. -/
def IngressSource.onUpdate (nsRestriction : String) (oldObj newObj : Ingress) :
    List Resource :=
  IngressSource.onDelete nsRestriction oldObj ++ IngressSource.onAdd nsRestriction newObj

/-- The configuration surface of `main()` that reaches the watchers. -/
structure ProgramConfig where
  publishAll : Bool
  nsRestriction : String
deriving DecidableEq

/-- `main()` wiring: `NewServicesWatcher(factory, publishAll, notifyMdns)` —
the configured namespace restriction is not passed to the Service watcher. -/
def mainServiceRecords (cfg : ProgramConfig) (decode : String → Option TxtTable)
    (svc : Service) : List RR :=
  ServiceSource.buildRecords cfg.publishAll decode svc

/-- `main()` wiring: `NewIngressWatcher(factory, namespace, notifyMdns)`. -/
def mainIngressRecords (cfg : ProgramConfig) (ing : Ingress) : List RR :=
  IngressSource.buildRecords cfg.nsRestriction ing

/-- Spec-side definition (follows the spec's words, for comparison with the
source's fold): the last non-empty load-balancer ingress IP encountered. -/
def lastNonEmptySpec (l : List String) : Option String :=
  l.reverse.find? (fun s => !(s == ""))

/-- Spec-side: two observed iteration orders of the same decoded JSON object,
entrywise — equal keys, inner key/value lists permuted. -/
def InnerPerm (t1 t2 : TxtTable) : Prop :=
  List.Forall₂ (fun e1 e2 => e1.1 = e2.1 ∧ List.Perm e1.2 e2.2) t1 t2

/-- Spec-side: `t1` and `t2` present the same decoded JSON object (outer
entries permuted, inner key/value lists permuted). -/
def TablePerm (t1 t2 : TxtTable) : Prop :=
  ∃ t, List.Perm t1 t ∧ InnerPerm t t2

/-- A decode oracle for services without usable txt annotation content. -/
def decodeNone : String → Option TxtTable := fun _ => none

/-- Spec-side checker: a record is either not a text record or carries the
default single empty string. -/
def txtIsDefault : RR → Bool
  | .TXT _ strs => strs == [""]
  | _ => true

/-- The spec's end-to-end example Service: `example`/`default`, LoadBalancer,
ingress IP 192.0.2.10, one port http/80/TCP, no annotations. -/
def svcEndToEnd : Service :=
  { name := "example", ns := "default", type := "LoadBalancer", clusterIP := "",
    lbIngressIPs := ["192.0.2.10"], annotations := [],
    ports := [{ name := "http", port := 80, protocol := "TCP" }] }

/-- A Service outside the configured namespace that is otherwise
publishable: used against the namespace-filter claim. -/
def svcOtherNs : Service :=
  { name := "web", ns := "other", type := "LoadBalancer", clusterIP := "",
    lbIngressIPs := ["192.0.2.10"], annotations := [],
    ports := [] }

/-- An eligible ClusterIP Service with a parseable cluster address. -/
def svcCluster : Service :=
  { name := "db", ns := "default", type := "ClusterIP", clusterIP := "10.43.0.1",
    lbIngressIPs := [], annotations := [(publishKey, "")], ports := [] }

/-- A headless ClusterIP Service (`clusterIP: None`) with the publish marker. -/
def svcHeadless : Service :=
  { name := "hs", ns := "default", type := "ClusterIP", clusterIP := "None",
    lbIngressIPs := [], annotations := [(publishKey, "")], ports := [] }

/-- A Service with several load-balancer ingress entries, the last non-empty
of which differs from the first. -/
def svcTwoLB : Service :=
  { name := "lb", ns := "default", type := "LoadBalancer", clusterIP := "",
    lbIngressIPs := ["192.0.2.10", "", "192.0.2.11"], annotations := [(publishKey, "")],
    ports := [] }

/-- A Service whose service-txt annotation is present but malformed. -/
def svcBadTxt : Service :=
  { name := "tx", ns := "default", type := "LoadBalancer", clusterIP := "",
    lbIngressIPs := ["192.0.2.10"], annotations := [(serviceTxtKey, "not json")],
    ports := [{ name := "http", port := 80, protocol := "TCP" }] }

/-- A Service with a well-formed service-txt annotation whose decoded object
has two keys under the `http` port. -/
def svcTwoKeys : Service :=
  { name := "web", ns := "default", type := "LoadBalancer", clusterIP := "",
    lbIngressIPs := ["192.0.2.10"],
    annotations := [(serviceTxtKey, "json-with-two-keys")],
    ports := [{ name := "http", port := 80, protocol := "TCP" }] }

/-- One observed iteration order of the decoded two-key object. -/
def tableAB : TxtTable := [("http", [("a", "1"), ("b", "2")])]

/-- The other observed iteration order of the same decoded object. -/
def tableBA : TxtTable := [("http", [("b", "2"), ("a", "1")])]

/-- An Ingress in namespace `other` that would otherwise produce a record. -/
def ingOtherNs : Ingress :=
  { ns := "other", lbIngressIPs := ["192.0.2.10"], ruleHosts := ["app.local"] }

/-- The 16 address bytes of 2001:db8::1. -/
def bs2001 : List Nat := [32, 1, 13, 184, 0, 0, 0, 0, 0, 0, 0, 0, 0, 0, 0, 1]

theorem hasSuffix_iff (s suf : String) : hasSuffix s suf = true ↔ suf.data <:+ s.data := by
  simp [hasSuffix]

theorem dot_suffix_normalizeDot (s : String) :
    ("." : String).data <:+ (normalizeDot s).data := by
  cases hsd : hasSuffix s "." with
  | true => simpa [normalizeDot, hsd] using (hasSuffix_iff s ".").1 hsd
  | false =>
    simp only [normalizeDot, hsd, Bool.false_eq_true, if_false]
    rw [String.data_append]
    exact List.suffix_append _ _

theorem local_suffix_normalize (s : String) :
    (".local." : String).data <:+ (normalizeHostname s).data := by
  cases hl : hasSuffix (normalizeDot s) ".local." with
  | true => simpa [normalizeHostname, hl] using (hasSuffix_iff _ _).1 hl
  | false =>
    simp only [normalizeHostname, hl, Bool.false_eq_true, if_false]
    obtain ⟨z, hz⟩ := dot_suffix_normalizeDot s
    refine ⟨z, ?_⟩
    rw [String.data_append, ← hz, List.append_assoc]
    congr 1

theorem normalize_of_local_suffix (y : String) (h : hasSuffix y ".local." = true) :
    normalizeHostname y = y := by
  have hd : hasSuffix y "." = true := by
    rw [hasSuffix_iff] at h ⊢
    exact List.IsSuffix.trans (by decide) h
  simp [normalizeHostname, normalizeDot, hd, h]

theorem no_double_dot_of_local (y : String)
    (h : (".local." : String).data <:+ y.data) : hasSuffix y ".." = false := by
  rw [hasSuffix]
  simp only [decide_eq_false_iff_not]
  intro hdd
  rcases List.suffix_or_suffix_of_suffix hdd h with hc | hc
  · exact absurd hc (by decide)
  · exact absurd hc (by decide)

/-- C4: Hostname normalization (ensure one trailing dot, then append `local.`
if the name does not already end in `.local.`) is idempotent for every input
string x, and its result always ends in `.local.` with exactly one trailing
dot (it ends in `.` but not in `..`). -/
theorem c4_normalize_idempotent (x : String) :
    normalizeHostname (normalizeHostname x) = normalizeHostname x ∧
      hasSuffix (normalizeHostname x) ".local." = true ∧
      hasSuffix (normalizeHostname x) "." = true ∧
      hasSuffix (normalizeHostname x) ".." = false := by
  have hloc := local_suffix_normalize x
  refine ⟨normalize_of_local_suffix _ ((hasSuffix_iff _ _).2 hloc),
    (hasSuffix_iff _ _).2 hloc, ?_, no_double_dot_of_local _ hloc⟩
  rw [hasSuffix_iff]
  exact List.IsSuffix.trans (by decide) hloc

/-- C5: `buildARecord` with the reverse flag set returns exactly the forward
record followed by the reverse pointer (one forward record when unset); the
IPv4 reverse name reverses the octets and appends `in-addr.arpa.`
(192.0.2.10 gives `10.2.0.192.in-addr.arpa.`); the IPv6 reverse name is the
32 lowercase hex nibble labels, bytes last to first, low nibble first,
followed by `ip6.arpa.` (checked on 2001:db8::1). -/
theorem c5_build_a_record :
    (∀ (name : String) (a b c d : Nat),
        buildARecord name (IP.v4 a b c d) true =
          [RR.A name (a, b, c, d),
           RR.PTR (toString d ++ "." ++ toString c ++ "." ++ toString b ++ "." ++
             toString a ++ ".in-addr.arpa.") name] ∧
        buildARecord name (IP.v4 a b c d) false = [RR.A name (a, b, c, d)]) ∧
    reverseNameV4 192 0 2 10 = "10.2.0.192.in-addr.arpa." ∧
    (∀ (name : String) (bs : List Nat), ip4Mapped? bs = none →
        buildARecord name (IP.v6 bs) true =
          [RR.AAAA name bs, RR.PTR (reverseNameV6 bs) name] ∧
        buildARecord name (IP.v6 bs) false = [RR.AAAA name bs]) ∧
    reverseNameV6 bs2001 =
      "1.0.0.0.0.0.0.0.0.0.0.0.0.0.0.0.0.0.0.0.0.0.0.0.8.b.d.0.1.0.0.2.ip6.arpa." ∧
    (∀ (name : String) (addr : IP),
        (buildARecord name addr true).length = 2 ∧
        (buildARecord name addr false).length = 1) := by
  refine ⟨fun name a b c d => ⟨rfl, rfl⟩, by decide, ?_, by decide, ?_⟩
  · intro name bs h
    constructor <;> simp [buildARecord, IP.to4?, h, IP.to16]
  · intro name addr
    cases addr with
    | v4 a b c d => exact ⟨rfl, rfl⟩
    | v6 bs => cases h : ip4Mapped? bs <;> simp [buildARecord, IP.to4?, h]

/-- C5 witness: the hypothesis `ip4Mapped? bs = none` discharged at the
concrete 2001:db8::1 bytes. -/
theorem c5_witness :
    buildARecord "v6.example.local." (IP.v6 bs2001) true =
      [RR.AAAA "v6.example.local." bs2001,
       RR.PTR (reverseNameV6 bs2001) "v6.example.local."] :=
  (c5_build_a_record.2.2.1 "v6.example.local." bs2001 (by decide)).1

/-- C6: the service-discovery bundle builder returns zero records when the
instance name, service name or hostname is empty, the port is zero, or the
protocol is neither TCP nor UDP; otherwise exactly pointer, service, text —
pointer target = service owner = text owner =
`<instance>._<lowercased-service>._<proto>.local.`, the service record has
priority 0, weight 0, the given port and the hostname as target, and the
text record carries the supplied strings or `[""]` if none. -/
theorem c6_srv_bundle :
    (∀ (i s pr h : String) (po : Nat) (t : List String),
        i = "" ∨ s = "" ∨ h = "" ∨ po = 0 ∨ (pr ≠ "TCP" ∧ pr ≠ "UDP") →
        buildSRVRecord i s pr h po t = []) ∧
    (∀ (i s pr h : String) (po : Nat) (t : List String),
        i ≠ "" → s ≠ "" → h ≠ "" → po ≠ 0 → pr = "TCP" ∨ pr = "UDP" →
        buildSRVRecord i s pr h po t =
          [RR.PTR ("_" ++ toLowerGo s ++ "._" ++ (if pr = "TCP" then "tcp" else "udp") ++
               ".local.")
             (i ++ "." ++ ("_" ++ toLowerGo s ++ "._" ++
               (if pr = "TCP" then "tcp" else "udp") ++ ".local.")),
           RR.SRV (i ++ "." ++ ("_" ++ toLowerGo s ++ "._" ++
               (if pr = "TCP" then "tcp" else "udp") ++ ".local."))
             0 0 po h,
           RR.TXT (i ++ "." ++ ("_" ++ toLowerGo s ++ "._" ++
               (if pr = "TCP" then "tcp" else "udp") ++ ".local."))
             (if t = [] then [""] else t)]) := by
  constructor
  · intro i s pr h po t hbad
    rcases hbad with h1 | h1 | h1 | h1 | ⟨h1, h2⟩
    · simp [buildSRVRecord, h1]
    · simp [buildSRVRecord, h1]
    · simp [buildSRVRecord, h1]
    · simp [buildSRVRecord, h1]
    · simp [buildSRVRecord, h1, h2]
  · intro i s pr h po t hi hs hh hpo hp
    rcases hp with hp | hp <;> subst hp <;>
      simp [buildSRVRecord, hi, hs, hh, hpo]

/-- C6 witness: hypotheses discharged at a concrete TCP bundle (with an
uppercase service name, showing the lowercasing). -/
theorem c6_witness :
    buildSRVRecord "default/example" "HTTP" "TCP" "example.default.local." 80 [] =
      [RR.PTR "_http._tcp.local." "default/example._http._tcp.local.",
       RR.SRV "default/example._http._tcp.local." 0 0 80 "example.default.local.",
       RR.TXT "default/example._http._tcp.local." [""]] :=
  (c6_srv_bundle.2 "default/example" "HTTP" "TCP" "example.default.local." 80 []
      (by decide) (by decide) (by decide) (by decide) (Or.inl rfl)).trans (by decide)

/-- C7: for every update notification, both watchers emit exactly the
Removed-action event built from the old object followed by the Added-action
event built from the new object — the two sends of `onUpdate` in program
order, so the single-consumer Dispatcher receives Removed before Added. -/
theorem c7_update_emits_removed_then_added :
    (∀ (pubAll : Bool) (decode : String → Option TxtTable) (oldObj newObj : Service),
        ServiceSource.onUpdate pubAll decode oldObj newObj =
          [{ sourceType := "service", action := Action.deleted,
             records := ServiceSource.buildRecords pubAll decode oldObj },
           { sourceType := "service", action := Action.added,
             records := ServiceSource.buildRecords pubAll decode newObj }]) ∧
    (∀ (nsRestriction : String) (oldObj newObj : Ingress),
        IngressSource.onUpdate nsRestriction oldObj newObj =
          [{ sourceType := "ingress", action := Action.deleted,
             records := IngressSource.buildRecords nsRestriction oldObj },
           { sourceType := "ingress", action := Action.added,
             records := IngressSource.buildRecords nsRestriction newObj }]) :=
  ⟨fun _ _ _ _ => rfl, fun _ _ _ => rfl⟩

theorem foldl_ip_eq_last (l : List String) (acc : Option IP) :
    l.foldl (fun a s => if s ≠ "" then parseIP s else a) acc =
      match lastNonEmptySpec l with
      | some s => parseIP s
      | none => acc := by
  induction l generalizing acc with
  | nil => rfl
  | cons hd tl ih =>
    rw [List.foldl_cons, ih]
    simp only [lastNonEmptySpec, List.reverse_cons, List.find?_append]
    cases hfind : tl.reverse.find? (fun s => !(s == "")) with
    | some u => simp [Option.or]
    | none =>
      by_cases hhd : hd = ""
      · simp [hhd, Option.or, List.find?]
      · have hb : (hd == "") = false := beq_eq_false_iff_ne.mpr hhd
        simp [Option.or, List.find?, hb, hhd]

/-- C1 counterexample: the configured namespace restriction is non-empty and
differs from the Service's namespace, yet the program's Service record
building (which, per `main()`, never receives the namespace restriction)
returns a non-empty record list. -/
theorem c1_counterexample :
    ({ publishAll := true, nsRestriction := "default" } : ProgramConfig).nsRestriction ≠ "" ∧
    ({ publishAll := true, nsRestriction := "default" } : ProgramConfig).nsRestriction ≠
      svcOtherNs.ns ∧
    mainServiceRecords { publishAll := true, nsRestriction := "default" } decodeNone
      svcOtherNs ≠ [] := by
  refine ⟨by decide, by decide, by decide⟩

/-- C1 amended: only the Ingress builder (and the alternate Service builder
variant) applies the namespace restriction: any resource whose namespace
differs from a non-empty configured namespace yields the empty record list,
whatever its addresses (the code tests the namespace after address
determination, but a mismatch yields the empty list either way); the Service
builder wired into `main()` ignores the namespace restriction. -/
theorem c1_namespace_filter :
    (∀ (nsRestriction : String) (ing : Ingress), nsRestriction ≠ "" →
        nsRestriction ≠ ing.ns → IngressSource.buildRecords nsRestriction ing = []) ∧
    (∀ (cfg : AltServiceCfg) (svc : Service), cfg.ns ≠ "" → cfg.ns ≠ svc.ns →
        ServiceSourceAlt.buildRecords cfg svc = []) := by
  constructor
  · intro nsRestriction ing h1 h2
    simp only [IngressSource.buildRecords]
    split
    · rfl
    · simp [h1, h2]
  · intro cfg svc h1 h2
    simp only [ServiceSourceAlt.buildRecords]
    split
    · rfl
    · simp [h1, h2]

/-- C1 witness: hypotheses discharged at a mismatched-namespace Ingress and
Service that would otherwise produce records. -/
theorem c1_witness :
    IngressSource.buildRecords "default" ingOtherNs = [] ∧
    ServiceSourceAlt.buildRecords
      { defaultNamespace := "default", withoutNamespace := false, ns := "default",
        publishInternal := false } svcOtherNs = [] :=
  ⟨c1_namespace_filter.1 "default" ingOtherNs (by decide) (by decide),
   c1_namespace_filter.2 _ svcOtherNs (by decide) (by decide)⟩

/-- C2 counterexample: in the Service builder wired into `main()` there is no
internal-address-publication option at all — an eligible ClusterIP Service
always has its cluster address parsed and used, so it does not yield zero
address records. -/
theorem c2_counterexample :
    svcCluster.type = "ClusterIP" ∧
    mainServiceRecords { publishAll := false, nsRestriction := "" } decodeNone
        svcCluster =
      [RR.A "db.default.local." (10, 43, 0, 1),
       RR.PTR "1.0.43.10.in-addr.arpa." "db.default.local."] := by
  refine ⟨by decide, by decide⟩

/-- C2 amended: the internal-publication gate exists only in the alternate
Service builder variant, where with the option disabled a ClusterIP Service
yields zero records, and with it enabled the cluster address is parsed; the
builder wired into `main()` always parses a ClusterIP Service's cluster
address.  For type LoadBalancer (both variants), the address used is the
parse of the last non-empty load-balancer ingress IP encountered. -/
theorem c2_ip_selection :
    (∀ (cfg : AltServiceCfg) (svc : Service), cfg.publishInternal = false →
        svc.type = "ClusterIP" → ServiceSourceAlt.buildRecords cfg svc = []) ∧
    (∀ svc : Service, svc.type = "LoadBalancer" →
        ServiceSource.serviceIP svc =
          match lastNonEmptySpec svc.lbIngressIPs with
          | some s => parseIP s
          | none => none) ∧
    (∀ (cfg : AltServiceCfg) (svc : Service), svc.type = "LoadBalancer" →
        ServiceSourceAlt.serviceIP cfg svc =
          match lastNonEmptySpec svc.lbIngressIPs with
          | some s => parseIP s
          | none => none) ∧
    (∀ (cfg : AltServiceCfg) (svc : Service), cfg.publishInternal = true →
        svc.type = "ClusterIP" →
        ServiceSourceAlt.serviceIP cfg svc = parseIP svc.clusterIP) := by
  refine ⟨?_, ?_, ?_, ?_⟩
  · intro cfg svc hpi htype
    have hip : ServiceSourceAlt.serviceIP cfg svc = none := by
      simp [ServiceSourceAlt.serviceIP, hpi, htype]
    simp [ServiceSourceAlt.buildRecords, hip]
  · intro svc htype
    rw [ServiceSource.serviceIP, if_neg (by simp [htype]), if_pos htype]
    exact foldl_ip_eq_last _ none
  · intro cfg svc htype
    rw [ServiceSourceAlt.serviceIP, if_neg (by simp [htype]), if_pos htype]
    exact foldl_ip_eq_last _ none
  · intro cfg svc hpi htype
    rw [ServiceSourceAlt.serviceIP, if_pos (by simp [hpi, htype])]

/-- C2 witness: the gate and the last-non-empty rule at concrete inputs —
the alternate builder drops an eligible ClusterIP Service when the option is
off, and with LB entries ["192.0.2.10", "", "192.0.2.11"] the address used
is 192.0.2.11. -/
theorem c2_witness :
    ServiceSourceAlt.buildRecords
      { defaultNamespace := "default", withoutNamespace := false, ns := "",
        publishInternal := false } svcCluster = [] ∧
    ServiceSource.serviceIP svcTwoLB = some (IP.v4 192 0 2 11) :=
  ⟨c2_ip_selection.1 _ svcCluster rfl (by decide),
   (c2_ip_selection.2.1 svcTwoLB (by decide)).trans (by decide)⟩

/-- C3: a Service is published only if publish-all is on or one of the
hostname / service-instance / service-txt annotations or the publish marker
is present; with none of these, record building returns exactly []. -/
theorem c3_eligibility :
    (∀ (pubAll : Bool) (decode : String → Option TxtTable) (svc : Service),
        pubAll = false →
        lookupAnn svc.annotations hostnameKey = none →
        lookupAnn svc.annotations serviceInstanceKey = none →
        lookupAnn svc.annotations serviceTxtKey = none →
        lookupAnn svc.annotations publishKey = none →
        ServiceSource.buildRecords pubAll decode svc = []) ∧
    (∀ (pubAll : Bool) (decode : String → Option TxtTable) (svc : Service),
        ServiceSource.buildRecords pubAll decode svc ≠ [] →
        pubAll = true ∨ (lookupAnn svc.annotations hostnameKey).isSome = true ∨
        (lookupAnn svc.annotations serviceInstanceKey).isSome = true ∨
        (lookupAnn svc.annotations serviceTxtKey).isSome = true ∨
        (lookupAnn svc.annotations publishKey).isSome = true) := by
  constructor
  · intro pubAll decode svc hpub h1 h2 h3 h4
    have he : ServiceSource.eligible pubAll svc = false := by
      simp [ServiceSource.eligible, hpub, h1, h2, h3, h4]
    simp [ServiceSource.buildRecords, he]
  · intro pubAll decode svc hne
    cases he : ServiceSource.eligible pubAll svc with
    | false => exact absurd (by simp [ServiceSource.buildRecords, he]) hne
    | true =>
      simp [ServiceSource.eligible, Bool.or_eq_true] at he
      tauto

/-- C3 witness: the spec's end-to-end example — Service example/default,
LoadBalancer, ingress IP 192.0.2.10, one port http/80/TCP, no annotations,
publish-all off, no publish marker — yields zero records. -/
theorem c3_witness :
    ServiceSource.buildRecords false decodeNone svcEndToEnd = [] :=
  c3_eligibility.1 false decodeNone svcEndToEnd rfl (by decide) (by decide)
    (by decide) (by decide)

/-- C10: a ClusterIP Service whose cluster address string does not parse as
an IP — in particular "None" or "" — yields the empty record list (in both
Service builder variants, whatever the configuration), not a failure. -/
theorem c10_unparseable_cluster_ip :
    (∀ (pubAll : Bool) (decode : String → Option TxtTable) (svc : Service),
        svc.type = "ClusterIP" → parseIP svc.clusterIP = none →
        ServiceSource.buildRecords pubAll decode svc = []) ∧
    (∀ (cfg : AltServiceCfg) (svc : Service),
        svc.type = "ClusterIP" → parseIP svc.clusterIP = none →
        ServiceSourceAlt.buildRecords cfg svc = []) ∧
    parseIP "None" = none ∧ parseIP "" = none := by
  refine ⟨?_, ?_, by decide, by decide⟩
  · intro pubAll decode svc h1 h2
    have hip : ServiceSource.serviceIP svc = none := by
      simp [ServiceSource.serviceIP, h1, h2]
    simp [ServiceSource.buildRecords, hip]
  · intro cfg svc h1 h2
    have hip : ServiceSourceAlt.serviceIP cfg svc = none := by
      cases hp : cfg.publishInternal <;>
        simp [ServiceSourceAlt.serviceIP, h1, h2, hp]
    simp [ServiceSourceAlt.buildRecords, hip]

/-- C10 witness: a headless Service (`clusterIP: None`) with the publish
marker yields [] in the main builder, and in the alternate builder even with
internal publication enabled. -/
theorem c10_witness :
    ServiceSource.buildRecords false decodeNone svcHeadless = [] ∧
    ServiceSourceAlt.buildRecords
      { defaultNamespace := "default", withoutNamespace := true, ns := "",
        publishInternal := true } svcHeadless = [] :=
  ⟨c10_unparseable_cluster_ip.1 false decodeNone svcHeadless (by decide) (by decide),
   c10_unparseable_cluster_ip.2.1 _ svcHeadless (by decide) (by decide)⟩

theorem all_txtIsDefault_buildARecord (name : String) (addr : IP) (rev : Bool) :
    (buildARecord name addr rev).all txtIsDefault = true := by
  cases addr with
  | v4 a b c d => cases rev <;> simp [buildARecord, IP.to4?, txtIsDefault]
  | v6 bs =>
    cases h : ip4Mapped? bs <;> cases rev <;>
      simp [buildARecord, IP.to4?, h, txtIsDefault]

theorem all_txtIsDefault_buildSRV (i s pr h : String) (po : Nat) :
    (buildSRVRecord i s pr h po []).all txtIsDefault = true := by
  simp only [buildSRVRecord]
  split
  · rfl
  · split
    · rfl
    · simp [txtIsDefault]

theorem all_txtIsDefault_foldl (inst host : String) (f : String → List String)
    (hf : ∀ p, f p = []) (ports : List ServicePort) (base : List RR)
    (hbase : base.all txtIsDefault = true) :
    (ports.foldl
        (fun recs p =>
          recs ++ buildSRVRecord inst p.name p.protocol host (p.port % 65536) (f p.name))
        base).all txtIsDefault = true := by
  induction ports generalizing base with
  | nil => exact hbase
  | cons p ps ih =>
    rw [List.foldl_cons]
    apply ih
    rw [List.all_append, hbase, hf, Bool.true_and]
    exact all_txtIsDefault_buildSRV inst p.name p.protocol host (p.port % 65536)

/-- C8: a Service whose service-txt annotation does not decode is not a
failure — the content is treated as absent, every text record in the built
set is the default single empty string, and the annotation's presence still
passes the eligibility gate. -/
theorem c8_malformed_txt :
    (∀ (pubAll : Bool) (decode : String → Option TxtTable) (svc : Service) (v : String),
        lookupAnn svc.annotations serviceTxtKey = some v → decode v = none →
        (ServiceSource.buildRecords pubAll decode svc).all txtIsDefault = true) ∧
    (∀ (pubAll : Bool) (svc : Service) (v : String),
        lookupAnn svc.annotations serviceTxtKey = some v →
        ServiceSource.eligible pubAll svc = true) := by
  constructor
  · intro pubAll decode svc v hv hd
    have hst : ServiceSource.svctxt decode (lookupAnn svc.annotations serviceTxtKey) =
        fun _ => [] := by
      rw [hv]
      by_cases hvv : v = ""
      · simp [ServiceSource.svctxt, hvv]
      · simp [ServiceSource.svctxt, hvv, hd]
    simp only [ServiceSource.buildRecords, hst]
    cases he : ServiceSource.eligible pubAll svc with
    | false => simp [he]
    | true =>
      simp only [he, if_true]
      cases hip : ServiceSource.serviceIP svc with
      | none => rfl
      | some ip =>
        simp only [hip]
        exact all_txtIsDefault_foldl _ _ _ (fun _ => rfl) _ _
          (all_txtIsDefault_buildARecord _ ip true)
  · intro pubAll svc v hv
    simp [ServiceSource.eligible, hv]

/-- C8 witness: hypotheses discharged at a LoadBalancer Service carrying a
malformed service-txt annotation and one http port. -/
theorem c8_witness :
    (ServiceSource.buildRecords false decodeNone svcBadTxt).all txtIsDefault = true ∧
    ServiceSource.eligible false svcBadTxt = true :=
  ⟨c8_malformed_txt.1 false decodeNone svcBadTxt "not json" (by decide) rfl,
   c8_malformed_txt.2 false svcBadTxt "not json" (by decide)⟩

/-- C9 counterexample: two invocations on the identical Service descriptor,
differing only in the observed iteration order of the same decoded
service-txt object (Go map range order is unspecified), produce different
record sequences — the key=value strings inside the text record swap. -/
theorem c9_counterexample :
    TablePerm tableAB tableBA ∧
    ServiceSource.buildRecords false (fun _ => some tableAB) svcTwoKeys ≠
      ServiceSource.buildRecords false (fun _ => some tableBA) svcTwoKeys := by
  refine ⟨⟨tableAB, List.Perm.refl _, ?_⟩, by decide⟩
  exact List.Forall₂.cons ⟨rfl, List.Perm.swap _ _ _⟩ List.Forall₂.nil

/-- C9 amended: record building is a function of the descriptor and the
observed map iteration order; it is independent of the iteration order (so
fully deterministic across invocations) whenever the service-txt annotation
is absent or empty, while with a decoded multi-key object the order of the
key=value strings inside a text record follows the unspecified iteration
order and may differ between invocations. -/
theorem c9_deterministic (pubAll : Bool) (d1 d2 : String → Option TxtTable)
    (svc : Service)
    (h : lookupAnn svc.annotations serviceTxtKey = none ∨
         lookupAnn svc.annotations serviceTxtKey = some "") :
    ServiceSource.buildRecords pubAll d1 svc =
      ServiceSource.buildRecords pubAll d2 svc := by
  have hst : ∀ d : String → Option TxtTable,
      ServiceSource.svctxt d (lookupAnn svc.annotations serviceTxtKey) =
        fun _ => [] := by
    intro d
    rcases h with h | h <;> simp [ServiceSource.svctxt, h]
  simp only [ServiceSource.buildRecords, hst]

/-- C9 witness: the amended determinism at a concrete publishable Service
without a service-txt annotation, under two different decode oracles. -/
theorem c9_witness :
    ServiceSource.buildRecords false (fun _ => some tableAB) svcCluster =
      ServiceSource.buildRecords false (fun _ => some tableBA) svcCluster :=
  c9_deterministic false (fun _ => some tableAB) (fun _ => some tableBA) svcCluster
    (Or.inl (by decide))

end ExternalMdns
